import Mathlib

/-!
Verification of the greeting lookup service (two Go variants: `main.go`,
variant A, whose `greeting` field returns a plain string, and the unnamed
second file, variant B, whose `greeting` field returns an object with
`text` and `flowers`). The definitions below are shallow embeddings of the
corresponding Go declarations and functions.
-/

namespace Greeting8

/-- The fixed greeting catalog (`var greetings = []string{...}`), shared
verbatim by both variants; index 0 corresponds to ID 1. -/
def greetings : List String :=
  [ "С 8 Марта! Пусть каждый день дарит улыбки, радость и вдохновение!"
  , "Поздравляю с Международным женским днём! Желаю весеннего настроения, любви и счастья!"
  , "С 8 Марта! Оставайтесь такой же прекрасной, нежной и удивительной!"
  , "Пусть в этот день сбудутся самые заветные мечты. С праздником весны!"
  , "С 8 Марта! Желаю море цветов, тепла, уюта и приятных сюрпризов!"
  , "Поздравляю с днём очарования! Будьте счастливы, любимы и неповторимы!"
  , "С Международным женским днём! Пусть весна расцветает в душе, а сердце согревает любовь."
  , "С 8 Марта! Желаю, чтобы каждый день был таким же ярким и прекрасным, как первые весенние цветы."
  , "Поздравляю с праздником! Пусть жизнь играет яркими красками, а рядом будут только верные и любящие люди."
  , "С 8 Марта! Желаю женского счастья, крепкого здоровья и исполнения желаний!" ]

/-- The fixed flower-emoji catalog of variant B (`var flowers = []string{...}`). -/
def flowers : List String :=
  [ "🌷🌹🌸"
  , "🌼🌻🌺"
  , "🌷🌷🌷"
  , "🌸🌸🌸"
  , "🌹🌹🌹"
  , "🌺🌺🌺"
  , "🌻🌻🌻"
  , "🌼🌼🌼"
  , "🌷🌹🌺"
  , "🌸🌼🌻" ]

/-- The payload of variant B's resolver (`type GreetingResponse struct`
with fields `Text` and `Flowers`). -/
structure GreetingResponse where
  text : String
  flowers : String
deriving Repr, DecidableEq

/-- The dynamic value bound to the `id` argument: in Go it arrives as
`interface{}` via `p.Args["id"]` and the resolver type-asserts it with
`p.Args["id"].(int)`. `intVal` is the case where the assertion succeeds,
`otherVal` any dynamic value of another type (the tag only distinguishes
such values; the resolver never inspects it). -/
inductive ArgValue
  | intVal (n : Int)
  | otherVal (tag : String)
deriving Repr, DecidableEq

/-- The two failure branches of the Go resolvers. Both are produced with
`fmt.Errorf`; the constructors record which branch produced the error
(failed type assertion vs. out-of-range ID), each carrying the exact
message string built by the code. -/
inductive ResolveError
  | validation (msg : String)
  | notFound (msg : String)
deriving Repr, DecidableEq

/-- Message of the failed type assertion branch
(`fmt.Errorf("id должен быть целым числом")`). -/
def validationMsg : String := "id должен быть целым числом"

/-- Message of the out-of-range branch
(`fmt.Errorf("поздравление с ID %d не найдено", id)`); `%d` is Go's
decimal integer formatting, embedded as `toString` on `Int`. -/
def notFoundMsg (id : Int) : String :=
  "поздравление с ID " ++ toString id ++ " не найдено"

/-- Variant A's `Resolve` function (`main.go` lines 42-52). The outer
`Option` models Go slice indexing: `none` is a runtime panic
(index out of range), `some` a normal return. The inner `Except` is the
Go `(interface{}, error)` pair. -/
def resolveA (arg : ArgValue) : Option (Except ResolveError String) :=
  match arg with
  | .otherVal _ => some (.error (.validation validationMsg))
  | .intVal id =>
    if id < 1 ∨ id > (greetings.length : Int) then
      some (.error (.notFound (notFoundMsg id)))
    else
      (greetings.get? (id - 1).toNat).map .ok

/-- Variant B's `Resolve` function (second file, lines 75-88). Same
conventions as `resolveA`; note that, as in the source, the bounds check
is performed against `len(greetings)` only, while both `greetings[id-1]`
and `flowers[id-1]` are then read. -/
def resolveB (arg : ArgValue) : Option (Except ResolveError GreetingResponse) :=
  match arg with
  | .otherVal _ => some (.error (.validation validationMsg))
  | .intVal id =>
    if id < 1 ∨ id > (greetings.length : Int) then
      some (.error (.notFound (notFoundMsg id)))
    else
      match greetings.get? (id - 1).toNat, flowers.get? (id - 1).toNat with
      | some t, some f => some (.ok ⟨t, f⟩)
      | _, _ => none

/-- Variant A's resolver instrumented with the list of catalog positions
it reads: identical control flow to `resolveA`, with the position of each
Go slice access `greetings[id-1]` also recorded in the returned trace. -/
def resolveATraced (arg : ArgValue) :
    Option (Except ResolveError String) × List Nat :=
  match arg with
  | .otherVal _ => (some (.error (.validation validationMsg)), [])
  | .intVal id =>
    if id < 1 ∨ id > (greetings.length : Int) then
      (some (.error (.notFound (notFoundMsg id))), [])
    else
      ((greetings.get? (id - 1).toNat).map .ok, [(id - 1).toNat])

/-- Variant B's resolver instrumented with the list of catalog positions
it reads (one entry per slice access: `greetings[id-1]`, then
`flowers[id-1]`). -/
def resolveBTraced (arg : ArgValue) :
    Option (Except ResolveError GreetingResponse) × List Nat :=
  match arg with
  | .otherVal _ => (some (.error (.validation validationMsg)), [])
  | .intVal id =>
    if id < 1 ∨ id > (greetings.length : Int) then
      (some (.error (.notFound (notFoundMsg id))), [])
    else
      (match greetings.get? (id - 1).toNat, flowers.get? (id - 1).toNat with
        | some t, some f => some (.ok ⟨t, f⟩)
        | _, _ => none,
       [(id - 1).toNat, (id - 1).toNat])

/-- Variant A's resolver with the content store passed and returned
explicitly, modelling the Go package-level `greetings` slice as state the
resolver could in principle mutate. -/
def resolveAWithStore (arg : ArgValue) (store : List String) :
    Option (Except ResolveError String) × List String :=
  match arg with
  | .otherVal _ => (some (.error (.validation validationMsg)), store)
  | .intVal id =>
    if id < 1 ∨ id > (store.length : Int) then
      (some (.error (.notFound (notFoundMsg id))), store)
    else
      ((store.get? (id - 1).toNat).map .ok, store)

/-- Variant B's resolver with both package-level slices passed and
returned explicitly. -/
def resolveBWithStore (arg : ArgValue) (texts fls : List String) :
    Option (Except ResolveError GreetingResponse) × (List String × List String) :=
  match arg with
  | .otherVal _ => (some (.error (.validation validationMsg)), (texts, fls))
  | .intVal id =>
    if id < 1 ∨ id > (texts.length : Int) then
      (some (.error (.notFound (notFoundMsg id))), (texts, fls))
    else
      (match texts.get? (id - 1).toNat, fls.get? (id - 1).toNat with
        | some t, some f => some (.ok ⟨t, f⟩)
        | _, _ => none,
       (texts, fls))

/-- GraphQL type expressions as built by the graphql-go combinators the
source uses: the Int and String scalars, `NewNonNull`, and object types
with a name and a list of named fields. -/
inductive GqlType
  | int
  | string
  | nonNull (t : GqlType)
  | object (name : String) (fields : List (String × GqlType))

/-- Whether a type expression is wrapped in `NewNonNull` at the top. -/
def isNonNull : GqlType → Bool
  | .nonNull _ => true
  | _ => false

/-- A root field declaration: field name, argument name, argument type
and result type, as configured in a `graphql.Field` value. -/
structure FieldDecl where
  name : String
  argName : String
  argType : GqlType
  resultType : GqlType

/-- Variant A's `greetingField` (`main.go` lines 35-41): result type
`graphql.String`, one argument `id` of type `NewNonNull(Int)`. -/
def greetingFieldA : FieldDecl :=
  { name := "greeting", argName := "id"
    argType := .nonNull .int, resultType := .string }

/-- Variant B's `Greeting` object type (second file, lines 55-65): two
fields, `text` and `flowers`, both `NewNonNull(String)`. -/
def greetingObjectType : GqlType :=
  .object "Greeting"
    [("text", .nonNull .string), ("flowers", .nonNull .string)]

/-- Variant B's `greetingField` (second file, lines 68-74): result type
`greetingType` itself, not wrapped in `NewNonNull`. -/
def greetingFieldB : FieldDecl :=
  { name := "greeting", argName := "id"
    argType := .nonNull .int, resultType := greetingObjectType }

/-- Environment access `os.Getenv("PORT")`: the variable's value, or the
empty string when the variable is unset (modelled as `none`). -/
def osGetenvPORT (env : Option String) : String := env.getD ""

/-- Port selection in `main`: substitute "8080" when `os.Getenv` gave the
empty string (so both unset and empty collapse to the default). -/
def resolvePort (env : Option String) : String :=
  if osGetenvPORT env = "" then "8080" else osGetenvPORT env

/-- The server's bind address, `":" + port`, for a given environment. -/
def serverAddr (env : Option String) : String := ":" ++ resolvePort env

/-- The URL variant A's CLI loop posts its queries to (`main.go` line
120): a string constant, taking no part of the environment into account. -/
def cliPostUrlA (_env : Option String) : String := "http://localhost:8080/"

/-- The URL variant B's CLI loop posts its queries to (second file, line
156): `fmt.Sprintf("http://localhost:%s/", port)`. -/
def cliPostUrlB (env : Option String) : String :=
  "http://localhost:" ++ resolvePort env ++ "/"

/-- Value of the maximal leading run of decimal digits of a character
list, accumulated left to right; stops at the first non-digit. -/
def digitsValue : List Char → Nat → Nat
  | c :: cs, acc =>
    if c.isDigit then digitsValue cs (acc * 10 + (c.toNat - 48)) else acc
  | [], acc => acc

/-- Scan a natural number: requires at least one leading decimal digit,
takes the maximal digit run and leaves the rest unread. -/
def scanNat (l : List Char) : Option Nat :=
  match l with
  | c :: _ => if c.isDigit then some (digitsValue l 0) else none
  | [] => none

/-- The integer scan performed by `fmt.Sscan(input, &id)` at base 10: an
optional sign followed by at least one decimal digit; the maximal digit
run gives the value and trailing characters are left unread, as `Sscan`
leaves them. `none` models the scan error for inputs with no leading
integer. -/
def parseGoInt (s : String) : Option Int :=
  match s.data with
  | '-' :: rest => (scanNat rest).map (fun n => -(n : Int))
  | '+' :: rest => (scanNat rest).map (fun n => (n : Int))
  | l => (scanNat l).map (fun n => (n : Int))

/-- The decision the CLI loop takes on one scanned input token: leave the
loop, print the re-prompt message and continue, or send a query for the
parsed identifier. Only `sendQuery` performs an HTTP request. -/
inductive CliAction
  | exitLoop
  | reprompt
  | sendQuery (id : Int)
deriving Repr, DecidableEq

/-- One iteration of the CLI loop on a scanned input token (`main.go`
lines 104-117): the literal "exit" breaks the loop; a token that fails
the integer scan prints the re-prompt and continues; otherwise the query
for the parsed id is posted. -/
def cliStep (input : String) : CliAction :=
  if input = "exit" then .exitLoop
  else
    match parseGoInt input with
    | none => .reprompt
    | some id => .sendQuery id

/-- The graceful-shutdown timeout handed to `context.WithTimeout`:
`5*time.Second`. -/
def shutdownTimeoutSeconds : Nat := 5

/-- Outcome of the shutdown tail of `main`: what error, if any, was
reported, and the process exit code. Every drain result maps to an
outcome, so the process always exits. -/
structure ShutdownOutcome where
  reportedError : Option String
  exitCode : Nat
deriving Repr, DecidableEq

/-- The shutdown tail of `main` (`main.go` lines 148-154): the result of
`server.Shutdown(ctx)` is `none` on success or `some msg` on error; on
error `log.Fatalf` reports the message and exits the process with code
1, otherwise `main` returns normally with code 0. -/
def shutdownStep (drainResult : Option String) : ShutdownOutcome :=
  match drainResult with
  | some msg =>
    { reportedError := some ("Ошибка при остановке сервера: " ++ msg)
      exitCode := 1 }
  | none => { reportedError := none, exitCode := 0 }

end Greeting8

namespace Greeting8

/-- C1: for every id in [1,10] both resolvers succeed and return the
catalog entries at position id-1: variant A returns the greeting text,
variant B the pair of text and flowers. -/
theorem resolve_in_range_returns_entry (id : Int) (h1 : 1 ≤ id) (h2 : id ≤ 10) :
    ∃ t f, greetings.get? (id - 1).toNat = some t ∧
      flowers.get? (id - 1).toNat = some f ∧
      resolveA (.intVal id) = some (.ok t) ∧
      resolveB (.intVal id) = some (.ok ⟨t, f⟩) := by
  have hlen : greetings.length = 10 := by rfl
  have hflen : flowers.length = 10 := by rfl
  have hn : (id - 1).toNat < greetings.length := by rw [hlen]; omega
  have hnf : (id - 1).toNat < flowers.length := by rw [hflen]; omega
  have hcond : ¬ (id < 1 ∨ id > (greetings.length : Int)) := by
    rw [hlen]; push_cast; omega
  refine ⟨greetings.get ⟨_, hn⟩, flowers.get ⟨_, hnf⟩,
    List.get?_eq_get hn, List.get?_eq_get hnf, ?_, ?_⟩
  · simp only [resolveA]
    rw [if_neg hcond, List.get?_eq_get hn]
    rfl
  · simp only [resolveB]
    rw [if_neg hcond, List.get?_eq_get hn, List.get?_eq_get hnf]

/-- Witness for C1 at id = 3. -/
theorem resolve_in_range_returns_entry_witness :
    ∃ t f, greetings.get? ((3 : Int) - 1).toNat = some t ∧
      flowers.get? ((3 : Int) - 1).toNat = some f ∧
      resolveA (.intVal 3) = some (.ok t) ∧
      resolveB (.intVal 3) = some (.ok ⟨t, f⟩) :=
  resolve_in_range_returns_entry 3 (by decide) (by decide)

/-- C2: for every id outside [1,10] both resolvers fail with the
not-found error and return no record; the message contains the decimal
representation of id (Go's `%d` formatting, embedded as `toString`). -/
theorem resolve_out_of_range_not_found (id : Int) (h : id < 1 ∨ id > 10) :
    resolveA (.intVal id) = some (.error (.notFound (notFoundMsg id))) ∧
    resolveB (.intVal id) = some (.error (.notFound (notFoundMsg id))) ∧
    ∃ a b, notFoundMsg id = a ++ toString id ++ b := by
  have hcond : id < 1 ∨ id > (greetings.length : Int) := by
    have hlen : greetings.length = 10 := by rfl
    rw [hlen]; push_cast; omega
  refine ⟨?_, ?_, "поздравление с ID ", " не найдено", rfl⟩
  · simp only [resolveA]; rw [if_pos hcond]
  · simp only [resolveB]; rw [if_pos hcond]

/-- Witness for C2 at id = 0. -/
theorem resolve_out_of_range_not_found_witness :
    resolveA (.intVal 0) = some (.error (.notFound (notFoundMsg 0))) ∧
    resolveB (.intVal 0) = some (.error (.notFound (notFoundMsg 0))) ∧
    ∃ a b, notFoundMsg 0 = a ++ toString (0 : Int) ++ b :=
  resolve_out_of_range_not_found 0 (by decide)

/-- C10: both resolvers are total and panic-free for every argument: no
execution reaches an out-of-bounds slice access (`none` in the model),
because the bounds check against `len(greetings)` precedes the accesses
and the two catalogs have the same length, 10. -/
theorem resolve_no_panic :
    greetings.length = 10 ∧ flowers.length = greetings.length ∧
    ∀ arg : ArgValue, (resolveA arg).isSome ∧ (resolveB arg).isSome := by
  refine ⟨rfl, rfl, ?_⟩
  intro arg
  cases arg with
  | otherVal t => exact ⟨rfl, rfl⟩
  | intVal id =>
    by_cases hcond : id < 1 ∨ id > (greetings.length : Int)
    · constructor
      · simp only [resolveA]; rw [if_pos hcond]; rfl
      · simp only [resolveB]; rw [if_pos hcond]; rfl
    · have hlen : greetings.length = 10 := by rfl
      have hflen : flowers.length = 10 := by rfl
      rw [hlen] at hcond
      push_cast at hcond
      have hn : (id - 1).toNat < greetings.length := by rw [hlen]; omega
      have hnf : (id - 1).toNat < flowers.length := by rw [hflen]; omega
      have hcond2 : ¬ (id < 1 ∨ id > (greetings.length : Int)) := by
        rw [hlen]; push_cast; omega
      constructor
      · simp only [resolveA]
        rw [if_neg hcond2, List.get?_eq_get hn]
        rfl
      · simp only [resolveB]
        rw [if_neg hcond2, List.get?_eq_get hn, List.get?_eq_get hnf]
        rfl

/-- C3: for every non-integer dynamic argument value, both resolvers
fail with the validation error and the trace of catalog positions read
is empty (no Content Store access happens on that path); the last two
conjuncts tie the instrumented resolvers to the plain ones. -/
theorem resolve_non_int_validation_no_access (v : String) :
    resolveATraced (.otherVal v) =
      (some (.error (.validation validationMsg)), []) ∧
    resolveBTraced (.otherVal v) =
      (some (.error (.validation validationMsg)), []) ∧
    (∀ a, (resolveATraced a).1 = resolveA a) ∧
    (∀ a, (resolveBTraced a).1 = resolveB a) := by
  refine ⟨rfl, rfl, ?_, ?_⟩
  · intro a
    cases a with
    | otherVal t => rfl
    | intVal id =>
      simp only [resolveATraced, resolveA]
      split
      · rfl
      · rfl
  · intro a
    cases a with
    | otherVal t => rfl
    | intVal id =>
      simp only [resolveBTraced, resolveB]
      split
      · rfl
      · rfl

/-- C6: resolution is deterministic and mutation-free: two resolutions
of equal arguments against the same stores produce equal payloads, and
the stores coming out are the ones that went in. -/
theorem resolve_deterministic_no_mutation (a b : ArgValue)
    (store texts fls : List String) (hab : a = b) :
    (resolveAWithStore a store).1 = (resolveAWithStore b store).1 ∧
    (resolveAWithStore a store).2 = store ∧
    (resolveBWithStore a texts fls).1 = (resolveBWithStore b texts fls).1 ∧
    (resolveBWithStore a texts fls).2 = (texts, fls) := by
  subst hab
  refine ⟨rfl, ?_, rfl, ?_⟩
  · cases a with
    | otherVal t => rfl
    | intVal id =>
      simp only [resolveAWithStore]
      split
      · rfl
      · rfl
  · cases a with
    | otherVal t => rfl
    | intVal id =>
      simp only [resolveBWithStore]
      split
      · rfl
      · split <;> rfl

/-- Witness for C6 at id = 3 against the process catalogs. -/
theorem resolve_deterministic_no_mutation_witness :
    (resolveAWithStore (.intVal 3) greetings).1 =
      (resolveAWithStore (.intVal 3) greetings).1 ∧
    (resolveAWithStore (.intVal 3) greetings).2 = greetings ∧
    (resolveBWithStore (.intVal 3) greetings flowers).1 =
      (resolveBWithStore (.intVal 3) greetings flowers).1 ∧
    (resolveBWithStore (.intVal 3) greetings flowers).2 =
      (greetings, flowers) :=
  resolve_deterministic_no_mutation (.intVal 3) (.intVal 3)
    greetings greetings flowers rfl

/-- C4 counterexample: the claim asserts non-nullable result types, but
neither variant wraps its result type in `NewNonNull`: variant A declares
the plain String scalar and variant B the plain `Greeting` object type. -/
theorem greeting_result_type_nullable :
    isNonNull greetingFieldA.resultType = false ∧
    isNonNull greetingFieldB.resultType = false ∧
    greetingFieldA.resultType ≠ GqlType.nonNull GqlType.string ∧
    greetingFieldB.resultType ≠ GqlType.nonNull greetingObjectType :=
  ⟨rfl, rfl, fun h => GqlType.noConfusion h, fun h => GqlType.noConfusion h⟩

/-- C4 amended: both variants declare the root field `greeting` with the
required non-null Int argument `id`; the result type is the nullable
String scalar in variant A and the nullable `Greeting` object type in
variant B, whose fields `text` and `flowers` are non-null Strings. -/
theorem greeting_field_declaration :
    greetingFieldA.name = "greeting" ∧ greetingFieldB.name = "greeting" ∧
    greetingFieldA.argName = "id" ∧ greetingFieldB.argName = "id" ∧
    greetingFieldA.argType = GqlType.nonNull GqlType.int ∧
    greetingFieldB.argType = GqlType.nonNull GqlType.int ∧
    isNonNull greetingFieldA.argType = true ∧
    isNonNull greetingFieldB.argType = true ∧
    greetingFieldA.resultType = GqlType.string ∧
    isNonNull greetingFieldA.resultType = false ∧
    greetingFieldB.resultType = GqlType.object "Greeting"
      [("text", GqlType.nonNull GqlType.string),
       ("flowers", GqlType.nonNull GqlType.string)] ∧
    isNonNull greetingFieldB.resultType = false :=
  ⟨rfl, rfl, rfl, rfl, rfl, rfl, rfl, rfl, rfl, rfl, rfl, rfl⟩

/-- Cancellation of a common first and last part of a three-part string
concatenation. -/
theorem append_middle_inj (p s a b : String)
    (h : p ++ a ++ s = p ++ b ++ s) : a = b := by
  apply String.ext
  have hd := congrArg String.data h
  simp only [String.data_append] at hd
  exact List.append_cancel_left (List.append_cancel_right hd)

/-- C5: variant A's CLI posts to the constant URL for every environment
while the server binds the configured port, so whenever the configured
port differs from "8080" the URL variant A posts to differs from the URL
carrying the configured port (the one variant B builds). -/
theorem cli_url_ignores_port_variant_a (env : Option String)
    (h : resolvePort env ≠ "8080") :
    cliPostUrlA env = "http://localhost:8080/" ∧
    serverAddr env = ":" ++ resolvePort env ∧
    cliPostUrlB env = "http://localhost:" ++ resolvePort env ++ "/" ∧
    cliPostUrlA env ≠ cliPostUrlB env := by
  refine ⟨rfl, rfl, rfl, ?_⟩
  intro heq
  apply h
  have h0 : cliPostUrlA env = "http://localhost:" ++ "8080" ++ "/" := rfl
  rw [h0] at heq
  simp only [cliPostUrlB] at heq
  exact (append_middle_inj "http://localhost:" "/" "8080" (resolvePort env)
    heq).symm

/-- Witness for C5 with PORT set to "9090". -/
theorem cli_url_ignores_port_variant_a_witness :
    cliPostUrlA (some "9090") = "http://localhost:8080/" ∧
    serverAddr (some "9090") = ":" ++ resolvePort (some "9090") ∧
    cliPostUrlB (some "9090") =
      "http://localhost:" ++ resolvePort (some "9090") ++ "/" ∧
    cliPostUrlA (some "9090") ≠ cliPostUrlB (some "9090") :=
  cli_url_ignores_port_variant_a (some "9090") (by decide)

/-- C7: the CLI handles "exit" and unscannable tokens locally: "exit"
leaves the loop, any other token whose integer scan fails produces the
re-prompt action, and no token whose integer scan fails ever produces
`sendQuery`, the only action that posts a request to the gateway. -/
theorem cli_local_rejection (s : String) (hs : parseGoInt s = none) :
    cliStep "exit" = CliAction.exitLoop ∧
    (s ≠ "exit" → cliStep s = CliAction.reprompt) ∧
    ∀ id, cliStep s ≠ CliAction.sendQuery id := by
  have hcs : cliStep s =
      if s = "exit" then CliAction.exitLoop else CliAction.reprompt := by
    simp only [cliStep, hs]
  refine ⟨rfl, ?_, ?_⟩
  · intro hne
    rw [hcs, if_neg hne]
  · intro id hcontra
    rw [hcs] at hcontra
    by_cases hne : s = "exit"
    · rw [if_pos hne] at hcontra
      exact CliAction.noConfusion hcontra
    · rw [if_neg hne] at hcontra
      exact CliAction.noConfusion hcontra

/-- Witness for C7 on the input "abc". -/
theorem cli_local_rejection_witness :
    cliStep "exit" = CliAction.exitLoop ∧
    ("abc" ≠ "exit" → cliStep "abc" = CliAction.reprompt) ∧
    ∀ id, cliStep "abc" ≠ CliAction.sendQuery id :=
  cli_local_rejection "abc" (by decide)

/-- C8: the listening port comes from the single PORT environment
variable, with "8080" substituted when the variable is unset or empty,
and the server's bind address is ":" followed by the resulting port. -/
theorem port_default_and_bind (p : String) (hp : p ≠ "") :
    resolvePort none = "8080" ∧
    resolvePort (some "") = "8080" ∧
    resolvePort (some p) = p ∧
    serverAddr none = ":8080" ∧
    serverAddr (some p) = ":" ++ p := by
  have hr : resolvePort (some p) = p := by
    simp [resolvePort, osGetenvPORT, hp]
  refine ⟨rfl, rfl, hr, rfl, ?_⟩
  show ":" ++ resolvePort (some p) = ":" ++ p
  rw [hr]

/-- Witness for C8 with PORT set to "9090". -/
theorem port_default_and_bind_witness :
    resolvePort none = "8080" ∧
    resolvePort (some "") = "8080" ∧
    resolvePort (some "9090") = "9090" ∧
    serverAddr none = ":8080" ∧
    serverAddr (some "9090") = ":" ++ "9090" :=
  port_default_and_bind "9090" (by decide)

/-- C9: the drain timeout is the fixed 5 seconds, and every drain result
yields a process exit: a drain error is reported and the process exits
with code 1, a clean drain exits with code 0; no outcome hangs. -/
theorem shutdown_reports_and_exits :
    shutdownTimeoutSeconds = 5 ∧
    (∀ msg, shutdownStep (some msg) =
      { reportedError := some ("Ошибка при остановке сервера: " ++ msg)
        exitCode := 1 }) ∧
    shutdownStep none = { reportedError := none, exitCode := 0 } :=
  ⟨rfl, fun _ => rfl, rfl⟩

end Greeting8
